import Mathlib

/-!
Verification of the physics/game core of `script.js` (2D canvas soccer game).

JavaScript numbers are IEEE doubles; we embed the arithmetic over `ℚ`
(every constant in the file is a small decimal, so all values arising in
the verified scenarios are exact rationals).  `Math.sqrt` has no exact
computable counterpart on `ℚ`, so `checkCollision` takes the distance
`dist = Math.sqrt(dx*dx + dy*dy)` as an explicit argument; theorems about
it constrain that argument to be the exact non-negative square root
(`0 ≤ dist ∧ dist * dist = dx*dx + dy*dy`), which pins it uniquely.
A second embedding over `Option ℚ` (where `none` plays the role of a
non-finite JS number, i.e. NaN) is used to study the zero-distance
division in `checkCollision`.

Rendering, DOM wiring and the AI heuristic are outside the claims and are
not embedded; fields used only by them (`color`) are dropped.
-/

/- Physics and game constants, script.js lines 32-46. -/

def GAME_WIDTH : ℚ := 1280

def GAME_HEIGHT : ℚ := 720

def GRAVITY : ℚ := 35/100

def FRICTION : ℚ := 99/100

def BALL_RESTITUTION : ℚ := 88/100

def PLAYER_RESTITUTION : ℚ := 80/100

def PLAYER_SPEED : ℚ := 5

def PLAYER_JUMP : ℚ := 12

def MAX_GOALS : ℕ := 3

/-- 2D vector, script.js class `Vector2D` (lines 135-167).  The class
mutates in place; the embedding is a plain pair of rationals and each
mutating method becomes a function returning the new value at its call
site. -/
structure Vector2D where
  x : ℚ
  y : ℚ
  deriving DecidableEq

/-- Circle-shaped physics body, script.js class `PhysicsBody`
(lines 174-271).  `color` is rendering-only and dropped.  The `Player`
subclass (line 278) only changes `mass` and `restitution` at
construction and adds the movement methods, and `Ball` (line 329)
likewise, so a single record represents all three. -/
structure PhysicsBody where
  position : Vector2D
  velocity : Vector2D
  radius : ℚ
  mass : ℚ
  isOnGround : Bool
  restitution : ℚ
  deriving DecidableEq

/-- `PhysicsBody.applyGravity` (script.js lines 185-187):
`this.velocity.y += GRAVITY`. -/
def PhysicsBody.applyGravity (b : PhysicsBody) : PhysicsBody :=
  { b with velocity := ⟨b.velocity.x, b.velocity.y + GRAVITY⟩ }

/-- `PhysicsBody.update` (script.js lines 189-218), written in
single-assignment style: each `let` names the value of the mutated field
after the corresponding source statement.
1. `velocity.x *= FRICTION` (line 191);
2. `position.add(velocity)` (line 194);
3. floor collision (lines 197-207): on penetration clamp `y`, reflect
   `velocity.y` by `-restitution`, and snap to zero / set grounded only
   when the reflected speed is below `0.9`; in the penetration branch
   with a large bounce `isOnGround` is left untouched, and it is set to
   `false` only in the no-penetration `else` branch;
4. wall collisions (lines 210-217): left check first, then the right
   check on the possibly already clamped `x`. -/
def PhysicsBody.update (b : PhysicsBody) : PhysicsBody :=
  let vx0 := b.velocity.x * FRICTION
  let px0 := b.position.x + vx0
  let py0 := b.position.y + b.velocity.y
  let vyr := b.velocity.y * (-b.restitution)
  let py1 := if py0 + b.radius > GAME_HEIGHT then GAME_HEIGHT - b.radius else py0
  let vy1 := if py0 + b.radius > GAME_HEIGHT then (if |vyr| < 9/10 then 0 else vyr)
             else b.velocity.y
  let ground1 := if py0 + b.radius > GAME_HEIGHT then
                   (if |vyr| < 9/10 then true else b.isOnGround)
                 else false
  let px1 := if px0 - b.radius < 0 then b.radius else px0
  let vx1 := if px0 - b.radius < 0 then vx0 * (-b.restitution) else vx0
  let px2 := if px1 + b.radius > GAME_WIDTH then GAME_WIDTH - b.radius else px1
  let vx2 := if px1 + b.radius > GAME_WIDTH then vx1 * (-b.restitution) else vx1
  { b with position := ⟨px2, py1⟩, velocity := ⟨vx2, vy1⟩, isOnGround := ground1 }

/-- `Player.moveLeft` (script.js lines 286-288). -/
def PhysicsBody.moveLeft (b : PhysicsBody) : PhysicsBody :=
  { b with velocity := ⟨-PLAYER_SPEED, b.velocity.y⟩ }

/-- `Player.moveRight` (script.js lines 290-292). -/
def PhysicsBody.moveRight (b : PhysicsBody) : PhysicsBody :=
  { b with velocity := ⟨PLAYER_SPEED, b.velocity.y⟩ }

/-- `Player.jump` (script.js lines 294-299): only when grounded, set
`velocity.y = -PLAYER_JUMP` and clear the grounded flag; otherwise the
whole body is untouched. -/
def PhysicsBody.jump (b : PhysicsBody) : PhysicsBody :=
  if b.isOnGround then
    { b with velocity := ⟨b.velocity.x, -PLAYER_JUMP⟩, isOnGround := false }
  else b

/-- `PhysicsBody.checkCollision` (script.js lines 232-270), resolving a
collision between `this = a` and `other = b` and returning the updated
pair.  `dist` stands for `Math.sqrt(dx*dx + dy*dy)` computed on line 235
(see the file header); every other line is translated verbatim.  Note
the source divides by `dist` with no zero guard. -/
def PhysicsBody.checkCollision (a b : PhysicsBody) (dist : ℚ) :
    PhysicsBody × PhysicsBody :=
  let dx := b.position.x - a.position.x
  let dy := b.position.y - a.position.y
  let minDist := a.radius + b.radius
  if dist < minDist then
    let overlap := (minDist - dist) / 2
    let nx := dx / dist
    let ny := dy / dist
    let ax := a.position.x - overlap * nx
    let ay := a.position.y - overlap * ny
    let bx := b.position.x + overlap * nx
    let bY := b.position.y + overlap * ny
    let rvx := b.velocity.x - a.velocity.x
    let rvy := b.velocity.y - a.velocity.y
    let velAlongNormal := rvx * nx + rvy * ny
    if velAlongNormal > 0 then
      ({ a with position := ⟨ax, ay⟩ }, { b with position := ⟨bx, bY⟩ })
    else
      let combinedRestitution := (a.restitution + b.restitution) / 2
      let impulseMag := (-(1 + combinedRestitution) * velAlongNormal) /
        (1 / a.mass + 1 / b.mass)
      let impulseX := impulseMag * nx
      let impulseY := impulseMag * ny
      ({ a with position := ⟨ax, ay⟩,
                velocity := ⟨a.velocity.x - (1 / a.mass) * impulseX,
                             a.velocity.y - (1 / a.mass) * impulseY⟩ },
       { b with position := ⟨bx, bY⟩,
                velocity := ⟨b.velocity.x + (1 / b.mass) * impulseX,
                             b.velocity.y + (1 / b.mass) * impulseY⟩ })
  else (a, b)

/-- Rectangular goal region, script.js class `Goal` (lines 361-400). -/
structure Goal where
  x : ℚ
  y : ℚ
  width : ℚ
  height : ℚ
  isLeftGoal : Bool
  deriving DecidableEq

/-- `Goal.checkGoal` (script.js lines 370-391): the left goal fires when
the ball's left edge is past the goal's right edge and the ball's
vertical extent strictly overlaps the goal's; the right goal fires when
the ball's right edge is past the goal's left edge with the same
vertical condition. -/
def Goal.checkGoal (g : Goal) (ball : PhysicsBody) : Bool :=
  if g.isLeftGoal then
    decide ((ball.position.x - ball.radius) < (g.x + g.width) ∧
            (ball.position.y + ball.radius) > g.y ∧
            (ball.position.y - ball.radius) < (g.y + g.height))
  else
    decide ((ball.position.x + ball.radius) > g.x ∧
            (ball.position.y + ball.radius) > g.y ∧
            (ball.position.y - ball.radius) < (g.y + g.height))

/-- Game state enumeration, script.js `GAME_STATE` object (lines 49-53). -/
inductive GAME_STATE where
  | MENU
  | PLAYING
  | GAMEOVER
  deriving DecidableEq

/-- The module-level mutable game variables the state machine touches
(script.js lines 44-45, 54, 64-65), bundled into one record threaded
through the logic functions.  The two goals are created with constant
arguments (lines 543-544), so they are plain definitions below rather
than fields.  `currentPlayMode` and the AI controller only select who
writes inputs; no claim depends on them, and `updateGame` is modelled
in two-player terms (inputs supplied externally). -/
structure GameVars where
  currentGameState : GAME_STATE
  scorePlayer1 : ℕ
  scorePlayer2 : ℕ
  player1 : PhysicsBody
  player2 : PhysicsBody
  ball : PhysicsBody
  deriving DecidableEq

/-- `leftGoal` as constructed on script.js line 543:
`new Goal(0, GAME_HEIGHT - 200, 20, 200, true)`. -/
def leftGoal : Goal := ⟨0, GAME_HEIGHT - 200, 20, 200, true⟩

/-- `rightGoal` as constructed on script.js line 544:
`new Goal(GAME_WIDTH - 20, GAME_HEIGHT - 200, 20, 200, false)`. -/
def rightGoal : Goal := ⟨GAME_WIDTH - 20, GAME_HEIGHT - 200, 20, 200, false⟩

/-- Player 1 as spawned by `createEntities` (script.js line 536):
`new Player(GAME_WIDTH * 0.25, GAME_HEIGHT - 100, 50, ...)`; the
`Player` constructor gives mass `1.2` and restitution
`PLAYER_RESTITUTION`, and `PhysicsBody`'s gives zero velocity and
`isOnGround = false`. -/
def spawnPlayer1 : PhysicsBody :=
  ⟨⟨GAME_WIDTH * (25/100), GAME_HEIGHT - 100⟩, ⟨0, 0⟩, 50, 12/10, false,
   PLAYER_RESTITUTION⟩

/-- Player 2 as spawned by `createEntities` (script.js line 538). -/
def spawnPlayer2 : PhysicsBody :=
  ⟨⟨GAME_WIDTH * (75/100), GAME_HEIGHT - 100⟩, ⟨0, 0⟩, 50, 12/10, false,
   PLAYER_RESTITUTION⟩

/-- The ball as spawned by `createEntities` (script.js line 540):
`new Ball(GAME_WIDTH * 0.5, GAME_HEIGHT * 0.5, 30, ...)`; the `Ball`
constructor gives mass `0.6` and restitution `BALL_RESTITUTION`. -/
def spawnBall : PhysicsBody :=
  ⟨⟨GAME_WIDTH * (50/100), GAME_HEIGHT * (50/100)⟩, ⟨0, 0⟩, 30, 6/10, false,
   BALL_RESTITUTION⟩

/-- `createEntities` (script.js lines 534-552): replaces the three
bodies with fresh spawns; scores and state are untouched.  (The goals
are rebuilt with the same constants, and the AI controller is
rendering/input wiring outside the model.) -/
def createEntities (s : GameVars) : GameVars :=
  { s with player1 := spawnPlayer1, player2 := spawnPlayer2, ball := spawnBall }

/-- `resetGame` (script.js lines 526-531): zero both scores, re-spawn
entities, and set the state to `MENU`. -/
def resetGame (s : GameVars) : GameVars :=
  { createEntities { s with scorePlayer1 := 0, scorePlayer2 := 0 } with
      currentGameState := GAME_STATE.MENU }

/-- `handleMenuInput` (script.js lines 516-524): the single menu input
(Enter / Space / tap).  From `MENU` it starts the game; from `GAMEOVER`
it runs `resetGame` and then starts; from `PLAYING` it does nothing. -/
def handleMenuInput (s : GameVars) : GameVars :=
  if s.currentGameState = GAME_STATE.MENU then
    { s with currentGameState := GAME_STATE.PLAYING }
  else if s.currentGameState = GAME_STATE.GAMEOVER then
    { resetGame s with currentGameState := GAME_STATE.PLAYING }
  else s

/-- The goal-check tail of `updateGame` (script.js lines 593-611):
if the left goal fires, player 2 scores and either the game ends
(score reached `MAX_GOALS`) or the entities re-spawn; else if the right
goal fires, symmetrically for player 1; else nothing. -/
def goalCheckStep (s : GameVars) : GameVars :=
  if leftGoal.checkGoal s.ball then
    if s.scorePlayer2 + 1 ≥ MAX_GOALS then
      { s with scorePlayer2 := s.scorePlayer2 + 1,
               currentGameState := GAME_STATE.GAMEOVER }
    else createEntities { s with scorePlayer2 := s.scorePlayer2 + 1 }
  else if rightGoal.checkGoal s.ball then
    if s.scorePlayer1 + 1 ≥ MAX_GOALS then
      { s with scorePlayer1 := s.scorePlayer1 + 1,
               currentGameState := GAME_STATE.GAMEOVER }
    else createEntities { s with scorePlayer1 := s.scorePlayer1 + 1 }
  else s

/-- `updateGame` (script.js lines 569-612): a no-op unless the state is
`PLAYING`; when playing, run the physics part of the tick (input
application, gravity, integration, the three collision pairs — lines
571-591, which only touch the three bodies and never the scores or the
state) and then the goal checks.  The physics part is abstracted as the
parameter `phys`, because the collision calls consume a real square
root; theorems about score/state behaviour require of `phys` exactly
the frame property the concrete physics block has (it writes only
entity fields). -/
def updateGame (phys : GameVars → GameVars) (s : GameVars) : GameVars :=
  if s.currentGameState = GAME_STATE.PLAYING then goalCheckStep (phys s)
  else s

/-- `phys` touches only the entity fields, as the physics block of
`updateGame` (script.js lines 571-591) does: scores and state are
preserved. -/
def PhysOnlyEntities (phys : GameVars → GameVars) : Prop :=
  ∀ t : GameVars, (phys t).scorePlayer1 = t.scorePlayer1 ∧
    (phys t).scorePlayer2 = t.scorePlayer2 ∧
    (phys t).currentGameState = t.currentGameState

/-! ### NaN-tracking embedding of `checkCollision`

To study the unguarded division by `dist` on script.js lines 241-242 we
re-embed the collision routine over `Option ℚ`: `some q` is an ordinary
finite JS number and `none` a non-finite one.  In JS, `0/0` is `NaN`;
`a/0` with `a ≠ 0` is `±Infinity`, but inside `checkCollision` a zero
divisor only ever arises as `dist = 0`, which forces `dx = dy = 0`, so
every division by zero there is `0/0 = NaN`.  Arithmetic on `NaN`
yields `NaN`, and every comparison with `NaN` is false — exactly the
propagation rules below. -/

/-- A JS number: `some q` finite with value `q`, `none` non-finite. -/
abbrev JNum := Option ℚ

/-- JS addition: non-finite operands are contagious. -/
def jadd : JNum → JNum → JNum
  | some a, some b => some (a + b)
  | _, _ => none

/-- JS subtraction. -/
def jsub : JNum → JNum → JNum
  | some a, some b => some (a - b)
  | _, _ => none

/-- JS multiplication. -/
def jmul : JNum → JNum → JNum
  | some a, some b => some (a * b)
  | _, _ => none

/-- JS negation. -/
def jneg : JNum → JNum
  | some a => some (-a)
  | none => none

/-- JS division; a zero divisor gives a non-finite result (`NaN` when the
numerator is also zero, the only case reachable in `checkCollision`). -/
def jdiv : JNum → JNum → JNum
  | some a, some b => if b = 0 then none else some (a / b)
  | _, _ => none

/-- JS `<`: false whenever an operand is `NaN`. -/
def jlt : JNum → JNum → Bool
  | some a, some b => decide (a < b)
  | _, _ => false

/-- JS `>`: false whenever an operand is `NaN`. -/
def jgt : JNum → JNum → Bool
  | some a, some b => decide (a > b)
  | _, _ => false

/-- `Vector2D` over JS numbers. -/
structure Vector2DJ where
  x : JNum
  y : JNum
  deriving DecidableEq

/-- `PhysicsBody` over JS numbers, restricted to the fields
`checkCollision` reads or writes. -/
structure PhysicsBodyJ where
  position : Vector2DJ
  velocity : Vector2DJ
  radius : JNum
  mass : JNum
  restitution : JNum
  deriving DecidableEq

/-- `PhysicsBody.checkCollision` (script.js lines 232-270) over JS
numbers, line for line; as above `dist` stands for
`Math.sqrt(dx*dx + dy*dy)` from line 235 (`Math.sqrt(0) = 0`). -/
def PhysicsBodyJ.checkCollision (a b : PhysicsBodyJ) (dist : JNum) :
    PhysicsBodyJ × PhysicsBodyJ :=
  let dx := jsub b.position.x a.position.x
  let dy := jsub b.position.y a.position.y
  let minDist := jadd a.radius b.radius
  if jlt dist minDist then
    let overlap := jdiv (jsub minDist dist) (some 2)
    let nx := jdiv dx dist
    let ny := jdiv dy dist
    let ax := jsub a.position.x (jmul overlap nx)
    let ay := jsub a.position.y (jmul overlap ny)
    let bx := jadd b.position.x (jmul overlap nx)
    let bY := jadd b.position.y (jmul overlap ny)
    let rvx := jsub b.velocity.x a.velocity.x
    let rvy := jsub b.velocity.y a.velocity.y
    let velAlongNormal := jadd (jmul rvx nx) (jmul rvy ny)
    if jgt velAlongNormal (some 0) then
      ({ a with position := ⟨ax, ay⟩ }, { b with position := ⟨bx, bY⟩ })
    else
      let combinedRestitution := jdiv (jadd a.restitution b.restitution) (some 2)
      let impulseMag := jdiv
        (jmul (jneg (jadd (some 1) combinedRestitution)) velAlongNormal)
        (jadd (jdiv (some 1) a.mass) (jdiv (some 1) b.mass))
      let impulseX := jmul impulseMag nx
      let impulseY := jmul impulseMag ny
      ({ a with position := ⟨ax, ay⟩,
                velocity := ⟨jsub a.velocity.x (jmul (jdiv (some 1) a.mass) impulseX),
                             jsub a.velocity.y (jmul (jdiv (some 1) a.mass) impulseY)⟩ },
       { b with position := ⟨bx, bY⟩,
                velocity := ⟨jadd b.velocity.x (jmul (jdiv (some 1) b.mass) impulseX),
                             jadd b.velocity.y (jmul (jdiv (some 1) b.mass) impulseY)⟩ })
  else (a, b)

/-- A player body and the ball with exactly coincident centers, the
failing input for the zero-distance collision: `Math.sqrt(0) = 0`, so
`dist = 0 < minDist = 80` and the normal is `0/0`. -/
def coincidentPlayer : PhysicsBodyJ :=
  ⟨⟨some 100, some 100⟩, ⟨some 1, some 0⟩, some 50, some (12/10),
   some (80/100)⟩

/-- The ball of the coincident-center failing input. -/
def coincidentBall : PhysicsBodyJ :=
  ⟨⟨some 100, some 100⟩, ⟨some 0, some 2⟩, some 30, some (6/10),
   some (88/100)⟩

/-! ### Claim theorems -/

/-- C1: the claim says `checkCollision` special-cases the zero-distance
normal so that coincident centers never produce NaN.  In fact the source
(script.js lines 241-242) divides `dx` and `dy` by `dist` unguarded:
for a player and the ball with exactly coincident centers, `dist = 0 <
minDist`, the normal is `0/0 = NaN`, the NaN comparison `velAlongNormal
> 0` is false so the impulse branch runs, and NaN lands in both
positions and both velocities. -/
theorem c1_coincident_centers_produce_nan :
    ((coincidentPlayer.checkCollision coincidentBall (some 0)).1.position.x = none) ∧
    ((coincidentPlayer.checkCollision coincidentBall (some 0)).1.position.y = none) ∧
    ((coincidentPlayer.checkCollision coincidentBall (some 0)).1.velocity.x = none) ∧
    ((coincidentPlayer.checkCollision coincidentBall (some 0)).1.velocity.y = none) ∧
    ((coincidentPlayer.checkCollision coincidentBall (some 0)).2.position.x = none) ∧
    ((coincidentPlayer.checkCollision coincidentBall (some 0)).2.position.y = none) ∧
    ((coincidentPlayer.checkCollision coincidentBall (some 0)).2.velocity.x = none) ∧
    ((coincidentPlayer.checkCollision coincidentBall (some 0)).2.velocity.y = none) := by
  norm_num [PhysicsBodyJ.checkCollision, coincidentPlayer, coincidentBall,
    jsub, jadd, jmul, jdiv, jneg, jlt, jgt]

/-- C2 counterexample: a body with `isOnGround = true` that penetrates
the floor this tick with a reflected vertical speed of `4 ≥ 0.9`: the
claim says it ends the call not grounded, but `update` leaves the flag
`true` (lines 201-204 only set the flag when the bounce is small, and
line 206 only runs when there was no penetration). -/
def c2body : PhysicsBody := ⟨⟨100, 715⟩, ⟨0, 5⟩, 10, 1, true, 80/100⟩

/-- C2: the claim fails on `c2body`: it penetrates
(`position.y + velocity.y + radius = 730 > 720`), its reflected speed
`|velocity.y * -restitution| = 4` is above the `0.9` threshold, yet
after `update` it is still marked grounded. -/
theorem c2_big_bounce_flag_counterexample :
    (c2body.position.y + c2body.velocity.y + c2body.radius > GAME_HEIGHT) ∧
    ¬ |c2body.velocity.y * (-c2body.restitution)| < 9/10 ∧
    (c2body.update).isOnGround = true := by
  norm_num [c2body, PhysicsBody.update, GAME_HEIGHT, GAME_WIDTH, FRICTION]

/-- C2 amended: when a body penetrates the floor and the reflected
vertical speed is at or above the resting threshold, `update` leaves
`isOnGround` at its previous value — the flag is set to `false` only in
the no-penetration branch (script.js line 206), so a previously
airborne body stays not grounded but a previously grounded one stays
grounded. -/
theorem update_floor_big_bounce_keeps_flag (b : PhysicsBody)
    (hpen : b.position.y + b.velocity.y + b.radius > GAME_HEIGHT)
    (hfast : ¬ |b.velocity.y * (-b.restitution)| < 9/10) :
    (b.update).isOnGround = b.isOnGround := by
  simp only [PhysicsBody.update, if_pos hpen, if_neg hfast]

/-- C2 witness: a previously airborne body penetrating with a large
bounce: the flag stays `false`. -/
def c2bodyAir : PhysicsBody := ⟨⟨100, 715⟩, ⟨0, 5⟩, 10, 1, false, 80/100⟩

theorem update_floor_big_bounce_keeps_flag_w :
    (c2bodyAir.update).isOnGround = c2bodyAir.isOnGround :=
  update_floor_big_bounce_keeps_flag c2bodyAir
    (by norm_num [c2bodyAir, GAME_HEIGHT]) (by norm_num [c2bodyAir])

/-- C7: characterisation of the left goal sensor (script.js lines
371-379): it fires iff the ball's left edge is strictly left of the
goal's right edge and the ball's vertical extent strictly overlaps the
goal's span; and the claim's two instances: a radius-1 ball at
`x = sensor.x + sensor.width - 0.1` with center vertically inside the
sensor fires it, and a radius-1 ball at
`x = sensor.x + sensor.width + radius + 1` does not. -/
theorem checkGoal_left_characterisation (g : Goal) (ball : PhysicsBody)
    (hg : g.isLeftGoal = true) :
    (g.checkGoal ball = true ↔
      (ball.position.x - ball.radius < g.x + g.width ∧
       ball.position.y + ball.radius > g.y ∧
       ball.position.y - ball.radius < g.y + g.height)) ∧
    (ball.radius = 1 → ball.position.x = g.x + g.width - 1/10 →
      g.y ≤ ball.position.y → ball.position.y ≤ g.y + g.height →
      g.checkGoal ball = true) ∧
    (ball.radius = 1 → ball.position.x = g.x + g.width + 1 + 1 →
      g.checkGoal ball = false) := by
  have hiff : g.checkGoal ball = true ↔
      (ball.position.x - ball.radius < g.x + g.width ∧
       ball.position.y + ball.radius > g.y ∧
       ball.position.y - ball.radius < g.y + g.height) := by
    simp [Goal.checkGoal, hg]
  refine ⟨hiff, ?_, ?_⟩
  · intro hr hx hy1 hy2
    exact hiff.mpr ⟨by rw [hr, hx]; linarith, by rw [hr]; linarith,
      by rw [hr]; linarith⟩
  · intro hr hx
    rw [← Bool.not_eq_true]
    intro hfire
    have := hiff.mp hfire
    rw [hr, hx] at this
    linarith [this.1]

/-- C7 witness ball: radius 1 at `x = leftGoal.x + leftGoal.width - 0.1`,
vertically inside the sensor. -/
def c7ball : PhysicsBody := ⟨⟨19 + 9/10, 600⟩, ⟨0, 0⟩, 1, 6/10, false, 88/100⟩

theorem checkGoal_left_characterisation_w :
    leftGoal.checkGoal c7ball = true :=
  (checkGoal_left_characterisation leftGoal c7ball rfl).2.1 rfl
    (by norm_num [c7ball, leftGoal, GAME_HEIGHT])
    (by norm_num [c7ball, leftGoal, GAME_HEIGHT])
    (by norm_num [c7ball, leftGoal, GAME_HEIGHT])

/-- C8: from `GAMEOVER` the menu input runs the full restart: both
scores are zeroed, the state becomes `PLAYING`, and all three entities
are replaced by their spawn configurations, whose velocities are zero
(script.js lines 520-523 and 526-531). -/
theorem handleMenuInput_restart (s : GameVars)
    (h : s.currentGameState = GAME_STATE.GAMEOVER) :
    (handleMenuInput s).scorePlayer1 = 0 ∧
    (handleMenuInput s).scorePlayer2 = 0 ∧
    (handleMenuInput s).currentGameState = GAME_STATE.PLAYING ∧
    (handleMenuInput s).player1 = spawnPlayer1 ∧
    (handleMenuInput s).player2 = spawnPlayer2 ∧
    (handleMenuInput s).ball = spawnBall ∧
    spawnPlayer1.velocity = ⟨0, 0⟩ ∧
    spawnPlayer2.velocity = ⟨0, 0⟩ ∧
    spawnBall.velocity = ⟨0, 0⟩ := by
  simp [handleMenuInput, h, resetGame, createEntities, spawnPlayer1,
    spawnPlayer2, spawnBall]

/-- C8 witness state: game over at 3-1. -/
def c8over : GameVars :=
  ⟨GAME_STATE.GAMEOVER, 3, 1, spawnPlayer1, spawnPlayer2, spawnBall⟩

theorem handleMenuInput_restart_w :
    (handleMenuInput c8over).scorePlayer1 = 0 ∧
    (handleMenuInput c8over).scorePlayer2 = 0 ∧
    (handleMenuInput c8over).currentGameState = GAME_STATE.PLAYING ∧
    (handleMenuInput c8over).player1 = spawnPlayer1 ∧
    (handleMenuInput c8over).player2 = spawnPlayer2 ∧
    (handleMenuInput c8over).ball = spawnBall ∧
    spawnPlayer1.velocity = ⟨0, 0⟩ ∧
    spawnPlayer2.velocity = ⟨0, 0⟩ ∧
    spawnBall.velocity = ⟨0, 0⟩ :=
  handleMenuInput_restart c8over rfl

/-- C9 counterexample state: game over at 3-0. -/
def c9over : GameVars :=
  ⟨GAME_STATE.GAMEOVER, 3, 0, spawnPlayer1, spawnPlayer2, spawnBall⟩

/-- C9 counterexample: the claim says the start input while `GAMEOVER`
changes neither state nor scores; but the menu input is the same
physical input as restart (script.js lines 516-524), so from `GAMEOVER`
it resets the score 3 to 0 and moves to `PLAYING`. -/
theorem c9_gameover_input_not_noop :
    c9over.currentGameState = GAME_STATE.GAMEOVER ∧
    c9over.scorePlayer1 = 3 ∧
    (handleMenuInput c9over).scorePlayer1 = 0 ∧
    (handleMenuInput c9over).currentGameState = GAME_STATE.PLAYING := by
  decide

/-- C9 amended: the menu input while `PLAYING` is a no-op on the whole
state (neither branch of `handleMenuInput` applies), and from `MENU` it
transitions to `PLAYING` changing nothing else — scores and entities are
untouched.  (From `GAMEOVER` the same input acts as restart; see the
counterexample.) -/
theorem handleMenuInput_invalid_noop (s : GameVars) :
    (s.currentGameState = GAME_STATE.PLAYING → handleMenuInput s = s) ∧
    (s.currentGameState = GAME_STATE.MENU →
      handleMenuInput s = { s with currentGameState := GAME_STATE.PLAYING }) := by
  constructor <;> intro h <;> simp [handleMenuInput, h]

/-- C9 witness state: mid-match playing state with a nonzero score. -/
def c9playing : GameVars :=
  ⟨GAME_STATE.PLAYING, 1, 2, spawnPlayer1, spawnPlayer2, spawnBall⟩

theorem handleMenuInput_invalid_noop_w :
    handleMenuInput c9playing = c9playing :=
  (handleMenuInput_invalid_noop c9playing).1 rfl

/-- C10: `Player.jump` (script.js lines 294-299) is a no-op on the whole
body when not grounded; when grounded it sets `velocity.y` to
`-PLAYER_JUMP`, leaves `velocity.x` alone, clears the flag — and hence a
second `jump` before re-grounding changes nothing (no double jump). -/
theorem jump_behaviour (b : PhysicsBody) :
    (b.isOnGround = false → b.jump = b) ∧
    (b.isOnGround = true →
      (b.jump).velocity.y = -PLAYER_JUMP ∧
      (b.jump).velocity.x = b.velocity.x ∧
      (b.jump).isOnGround = false ∧
      (b.jump).jump = b.jump) := by
  constructor
  · intro h
    simp [PhysicsBody.jump, h]
  · intro h
    simp [PhysicsBody.jump, h]

/-- C10 witness body: a grounded player. -/
def c10body : PhysicsBody := ⟨⟨320, 620⟩, ⟨3, 0⟩, 50, 12/10, true, 80/100⟩

theorem jump_behaviour_w :
    (c10body.jump).velocity.y = -PLAYER_JUMP ∧
    (c10body.jump).velocity.x = c10body.velocity.x ∧
    (c10body.jump).isOnGround = false ∧
    (c10body.jump).jump = c10body.jump :=
  (jump_behaviour c10body).2 rfl

/-- C4: whenever the field is wider than the body's diameter, `update`
leaves the body inside the field: the floor branch clamps or the body
was already above the floor, the left-wall branch clamps to `radius`,
and the right-wall branch (checked on the possibly left-clamped `x`)
clamps to `GAME_WIDTH - radius`; the two wall clamps cannot fight since
`2 * radius < GAME_WIDTH`. -/
theorem update_containment (b : PhysicsBody) (h : 2 * b.radius < GAME_WIDTH) :
    (b.update).position.y + b.radius ≤ GAME_HEIGHT ∧
    0 ≤ (b.update).position.x - b.radius ∧
    (b.update).position.x + b.radius ≤ GAME_WIDTH := by
  simp only [PhysicsBody.update]
  split_ifs <;>
    refine ⟨by linarith, by linarith, by linarith⟩

/-- C4 witness: the ball spawn respects the diameter bound and lands
inside the field after one update. -/
theorem update_containment_w :
    (spawnBall.update).position.y + spawnBall.radius ≤ GAME_HEIGHT ∧
    0 ≤ (spawnBall.update).position.x - spawnBall.radius ∧
    (spawnBall.update).position.x + spawnBall.radius ≤ GAME_WIDTH :=
  update_containment spawnBall (by norm_num [spawnBall, GAME_WIDTH])

/-- C5: if the bodies overlap (`dist < minDist`) but are already
separating (`velAlongNormal > 0`), `checkCollision` returns with the
positional correction applied and both velocities untouched (script.js
line 255).  `dist` is constrained to the exact square root of the
squared center distance. -/
theorem checkCollision_separating_keeps_velocities (a b : PhysicsBody)
    (dist : ℚ)
    (hsq : dist * dist =
      (b.position.x - a.position.x) * (b.position.x - a.position.x) +
      (b.position.y - a.position.y) * (b.position.y - a.position.y))
    (hnn : 0 ≤ dist)
    (hover : dist < a.radius + b.radius)
    (hsep : (b.velocity.x - a.velocity.x) * ((b.position.x - a.position.x) / dist) +
            (b.velocity.y - a.velocity.y) * ((b.position.y - a.position.y) / dist) > 0) :
    (a.checkCollision b dist).1.velocity = a.velocity ∧
    (a.checkCollision b dist).2.velocity = b.velocity := by
  simp only [PhysicsBody.checkCollision, if_pos hover, if_pos hsep]
  exact ⟨trivial, trivial⟩

/-- C5 witness bodies: overlapping (centers 3 apart, radii 2 + 2) yet
separating (closing speed along the normal is `+2`). -/
def c5a : PhysicsBody := ⟨⟨0, 0⟩, ⟨-1, 0⟩, 2, 12/10, false, 80/100⟩

/-- Second C5 witness body. -/
def c5b : PhysicsBody := ⟨⟨3, 0⟩, ⟨1, 0⟩, 2, 6/10, false, 88/100⟩

theorem checkCollision_separating_keeps_velocities_w :
    (c5a.checkCollision c5b 3).1.velocity = c5a.velocity ∧
    (c5a.checkCollision c5b 3).2.velocity = c5b.velocity :=
  checkCollision_separating_keeps_velocities c5a c5b 3
    (by norm_num [c5a, c5b]) (by norm_num) (by norm_num [c5a, c5b])
    (by norm_num [c5a, c5b])

/-- C6: two overlapping equal-mass bodies with restitution `1`, level
with each other (`y` coordinates equal), the left one moving `(+v, 0)`
and the right one `(-v, 0)`: `checkCollision` exchanges the velocities
exactly (the result is exact over `ℚ`; no tolerance is needed).  The
distance argument `bx - ax` is the exact square root of the squared
center distance since the `y` coordinates coincide and `ax < bx`. -/
theorem checkCollision_headon_velocity_exchange (ax ay bx ra rb m v : ℚ)
    (ga gb : Bool)
    (hx : ax < bx) (hover : bx - ax < ra + rb) (hv : 0 < v) (hm : 0 < m) :
    ((PhysicsBody.checkCollision ⟨⟨ax, ay⟩, ⟨v, 0⟩, ra, m, ga, 1⟩
      ⟨⟨bx, ay⟩, ⟨-v, 0⟩, rb, m, gb, 1⟩ (bx - ax)).1.velocity.x = -v ∧
     (PhysicsBody.checkCollision ⟨⟨ax, ay⟩, ⟨v, 0⟩, ra, m, ga, 1⟩
      ⟨⟨bx, ay⟩, ⟨-v, 0⟩, rb, m, gb, 1⟩ (bx - ax)).1.velocity.y = 0) ∧
    ((PhysicsBody.checkCollision ⟨⟨ax, ay⟩, ⟨v, 0⟩, ra, m, ga, 1⟩
      ⟨⟨bx, ay⟩, ⟨-v, 0⟩, rb, m, gb, 1⟩ (bx - ax)).2.velocity.x = v ∧
     (PhysicsBody.checkCollision ⟨⟨ax, ay⟩, ⟨v, 0⟩, ra, m, ga, 1⟩
      ⟨⟨bx, ay⟩, ⟨-v, 0⟩, rb, m, gb, 1⟩ (bx - ax)).2.velocity.y = 0) := by
  have hd : bx - ax ≠ 0 := ne_of_gt (by linarith)
  have hdd : (bx - ax) / (bx - ax) = 1 := div_self hd
  have hm' : m ≠ 0 := ne_of_gt hm
  simp only [PhysicsBody.checkCollision]
  split_ifs with h1
  · exfalso
    rw [hdd] at h1
    simp only [sub_self, zero_div, mul_zero, zero_mul, add_zero, mul_one] at h1
    linarith
  · refine ⟨⟨?_, ?_⟩, ?_, ?_⟩
    · rw [hdd]
      simp only [sub_self, zero_div, mul_zero, zero_mul, add_zero, mul_one]
      field_simp
      ring
    · rw [hdd]
      simp only [sub_self, zero_div, mul_zero, zero_mul, add_zero, mul_one,
        sub_zero]
    · rw [hdd]
      simp only [sub_self, zero_div, mul_zero, zero_mul, add_zero, mul_one]
      field_simp
      ring
    · rw [hdd]
      simp only [sub_self, zero_div, mul_zero, zero_mul, add_zero, mul_one,
        sub_zero]

/-- C6 witness: two radius-2 bodies at `x = 0` and `x = 3`, speeds
`±1`: `checkCollision` swaps the velocities. -/
theorem checkCollision_headon_velocity_exchange_w :
    ((PhysicsBody.checkCollision ⟨⟨0, 5⟩, ⟨1, 0⟩, 2, 3, false, 1⟩
      ⟨⟨3, 5⟩, ⟨-1, 0⟩, 2, 3, false, 1⟩ (3 - 0)).1.velocity.x = -1 ∧
     (PhysicsBody.checkCollision ⟨⟨0, 5⟩, ⟨1, 0⟩, 2, 3, false, 1⟩
      ⟨⟨3, 5⟩, ⟨-1, 0⟩, 2, 3, false, 1⟩ (3 - 0)).1.velocity.y = 0) ∧
    ((PhysicsBody.checkCollision ⟨⟨0, 5⟩, ⟨1, 0⟩, 2, 3, false, 1⟩
      ⟨⟨3, 5⟩, ⟨-1, 0⟩, 2, 3, false, 1⟩ (3 - 0)).2.velocity.x = 1 ∧
     (PhysicsBody.checkCollision ⟨⟨0, 5⟩, ⟨1, 0⟩, 2, 3, false, 1⟩
      ⟨⟨3, 5⟩, ⟨-1, 0⟩, 2, 3, false, 1⟩ (3 - 0)).2.velocity.y = 0) :=
  checkCollision_headon_velocity_exchange 0 5 3 2 2 3 1 false false
    (by norm_num) (by norm_num) (by norm_num) (by norm_num)

/-- C3: score/state evolution of a tick.  With `phys` the physics part
of `updateGame` (script.js lines 571-591; it writes only the entity
fields — `PhysOnlyEntities`), a tick from `PLAYING`:
* scores never decrease;
* if the left goal fires, player 2's score increments and the state
  becomes `GAMEOVER` exactly when that incremented score reaches
  `MAX_GOALS`;
* else if the right goal fires, symmetrically for player 1;
* if no goal fires the state stays `PLAYING` with scores unchanged;
and a tick from any other state changes nothing. -/
theorem updateGame_goal_scoring (phys : GameVars → GameVars) (s : GameVars)
    (hphys : PhysOnlyEntities phys) :
    (s.scorePlayer1 ≤ (updateGame phys s).scorePlayer1 ∧
     s.scorePlayer2 ≤ (updateGame phys s).scorePlayer2) ∧
    (s.currentGameState = GAME_STATE.PLAYING →
      (leftGoal.checkGoal (phys s).ball = true →
        (updateGame phys s).scorePlayer2 = s.scorePlayer2 + 1 ∧
        ((updateGame phys s).currentGameState = GAME_STATE.GAMEOVER ↔
          s.scorePlayer2 + 1 ≥ MAX_GOALS)) ∧
      (leftGoal.checkGoal (phys s).ball = false →
        rightGoal.checkGoal (phys s).ball = true →
        (updateGame phys s).scorePlayer1 = s.scorePlayer1 + 1 ∧
        ((updateGame phys s).currentGameState = GAME_STATE.GAMEOVER ↔
          s.scorePlayer1 + 1 ≥ MAX_GOALS)) ∧
      (leftGoal.checkGoal (phys s).ball = false →
        rightGoal.checkGoal (phys s).ball = false →
        (updateGame phys s).currentGameState = GAME_STATE.PLAYING ∧
        (updateGame phys s).scorePlayer1 = s.scorePlayer1 ∧
        (updateGame phys s).scorePlayer2 = s.scorePlayer2)) ∧
    (¬ s.currentGameState = GAME_STATE.PLAYING → updateGame phys s = s) := by
  obtain ⟨hp1, hp2, hps⟩ := hphys s
  refine ⟨?_, ?_, ?_⟩
  · by_cases hst : s.currentGameState = GAME_STATE.PLAYING
    · simp only [updateGame, if_pos hst, goalCheckStep]
      split_ifs <;> simp [createEntities, hp1, hp2]
    · simp [updateGame, hst]
  · intro hst
    refine ⟨?_, ?_, ?_⟩
    · intro hL
      simp only [updateGame, if_pos hst, goalCheckStep, hL, if_true]
      split_ifs with hg
      · simp only [hp2, hps, hst] at hg ⊢
        simp [hg]
      · simp only [hp2, hps, hst] at hg ⊢
        simp [createEntities, hg, hp2, hps, hst]
    · intro hL hR
      simp only [updateGame, if_pos hst, goalCheckStep, hL, hR,
        Bool.false_eq_true, if_false, if_true]
      split_ifs with hg
      · simp only [hp1, hps, hst] at hg ⊢
        simp [hg]
      · simp only [hp1, hps, hst] at hg ⊢
        simp [createEntities, hg, hp1, hps, hst]
    · intro hL hR
      simp [updateGame, if_pos hst, goalCheckStep, hL, hR, hp1, hp2, hps, hst]
  · intro hst
    simp [updateGame, hst]

/-- C3 witness state: playing at 2-0 with the ball inside the right
goal mouth; the tick credits player 1's third goal and ends the match. -/
def c3state : GameVars :=
  ⟨GAME_STATE.PLAYING, 2, 0, spawnPlayer1, spawnPlayer2,
   ⟨⟨1275, 600⟩, ⟨5, 0⟩, 30, 6/10, false, 88/100⟩⟩

theorem updateGame_goal_scoring_w :
    (updateGame id c3state).scorePlayer1 = c3state.scorePlayer1 + 1 ∧
    ((updateGame id c3state).currentGameState = GAME_STATE.GAMEOVER ↔
      c3state.scorePlayer1 + 1 ≥ MAX_GOALS) :=
  ((updateGame_goal_scoring id c3state (fun _ => ⟨rfl, rfl, rfl⟩)).2.1 rfl).2.1
    (by norm_num [Goal.checkGoal, leftGoal, c3state, GAME_HEIGHT])
    (by norm_num [Goal.checkGoal, rightGoal, c3state, GAME_HEIGHT, GAME_WIDTH])
